import Mathlib

/-!
Verification of the evaporation torrent proxy (package `proxy`).

The development shallowly embeds the repository's Go sources:
`src/proxy/torrent_read_seeker.go` (the per-file stream adapter),
`src/proxy/helpers.go` (locator and DHT-seed resolution) and
`src/proxy/proxy.go` (status computation and proxy startup).
External collaborators (the anacrolix torrent engine's reader, the DNS
resolver, the HTTP client, the URL parser) are modelled either as small
executable models or as explicit function parameters, following the
capability surface described in the design document.
-/

set_option autoImplicit false

namespace Evaporation

/-- Go constant io.SeekStart. -/
def seekStart : Int := 0

/-- Go constant io.SeekCurrent. -/
def seekCurrent : Int := 1

/-- Go constant io.SeekEnd. -/
def seekEnd : Int := 2

/-- Model of the external torrent engine's whole-torrent sequential reader
(the only reader surface the adapter consumes): the byte content of the
whole torrent, the current whole-torrent position, and the largest number
of bytes a single blocking read delivers. `maxChunk` models the io.Reader
licence to deliver fewer bytes than requested (a short read). Bytes are
modelled as natural numbers. -/
structure Reader where
  content : List Nat
  pos : Int
  maxChunk : Nat
deriving Repr, DecidableEq

/-- The reader's Go accessor CurrentPos. -/
def Reader.CurrentPos (r : Reader) : Int := r.pos

/-- Model of the external reader's Seek: standard io.Seeker semantics over
the whole torrent, returning the resulting whole-torrent position. The
adapter only ever delegates whence = start or whence = current (it rewrites
end-relative requests to start-relative ones before delegating); any other
whence value is given the io.SeekEnd convention here. The real call also
returns an error, which the adapter passes through unchanged; the model
reader never fails. -/
def Reader.seek (r : Reader) (offset : Int) (whence : Int) : Reader × Int :=
  let newpos :=
    if whence = seekStart then offset
    else if whence = seekCurrent then r.pos + offset
    else (r.content.length : Int) + offset
  ({ r with pos := newpos }, newpos)

/-- Model of the external reader's blocking Read into a buffer of `size`
bytes: it delivers up to `maxChunk` bytes of torrent content starting at
the current position (never past the end of the torrent), advances the
position by the delivered count, leaves the undelivered tail of the buffer
zeroed (Go's make zero-fills), and reports the delivered count. -/
def Reader.read (r : Reader) (size : Nat) : Reader × List Nat × Nat :=
  let start := r.pos.toNat
  let avail := r.content.length - start
  let n := min size (min r.maxChunk avail)
  let delivered := (r.content.drop start).take n
  ({ r with pos := r.pos + n }, delivered ++ List.replicate (size - n) 0, n)

/-- The slice of torrent.File the repository reads: path (for routing and
status), byte offset of the file inside the whole-torrent byte stream,
byte length, and the per-piece completion vector produced by File.State()
(one entry per piece the file spans, true = PieceState.Complete). -/
structure EngineFile where
  path : String
  offset : Int
  length : Int
  states : List Bool
deriving Repr, DecidableEq

/-- Go accessor File.Offset(). -/
def EngineFile.Offset (f : EngineFile) : Int := f.offset

/-- Go accessor File.Length(). -/
def EngineFile.Length (f : EngineFile) : Int := f.length

/-- The struct torrentReadSeeker of src/proxy/torrent_read_seeker.go: a
whole-torrent reader plus the file this adapter exposes. -/
structure TorrentReadSeeker where
  reader : Reader
  file : EngineFile
deriving Repr, DecidableEq

/-- Transliteration of torrentReadSeeker.Seek
(src/proxy/torrent_read_seeker.go lines 50-75). A start-relative request is
shifted by the file's offset and clamped down to the file's end; an
end-relative request is rewritten to a start-relative one and clamped up to
the file's start; the adjusted request is delegated to the underlying
reader and the reader's resulting whole-torrent position is translated
back to file-relative by subtracting the file's offset. -/
def TorrentReadSeeker.Seek (trs : TorrentReadSeeker) (offset : Int) (whence : Int) :
    TorrentReadSeeker × Int :=
  let ow1 :=
    if whence = seekStart then
      let mx := trs.file.Offset + trs.file.Length
      let o := trs.file.Offset + offset
      (if o > mx then mx else o, whence)
    else (offset, whence)
  let ow2 :=
    if ow1.2 = seekEnd then
      let o := (trs.file.Offset + trs.file.Length) - ow1.1
      (if o < trs.file.Offset then trs.file.Offset else o, seekStart)
    else ow1
  let rp := trs.reader.seek ow2.1 ow2.2
  ({ trs with reader := rp.1 }, rp.2 - trs.file.Offset)

/-- Result of torrentReadSeeker.Read: a normal return carries the updated
adapter, the caller's buffer after the copy, the reported byte count and
the returned error (`none` is Go's nil error, `some "EOF"` the
errors.New("EOF") value); `fault` is the runtime panic raised by
make([]byte, n) when n is negative. -/
inductive ReadResult where
  | ok (trs : TorrentReadSeeker) (p : List Nat) (n : Nat) (err : Option String)
  | fault
deriving Repr, DecidableEq

/-- Lines 19-23 of torrentReadSeeker.Read: if no prior seek positioned the
reader inside this file, seek to file-relative position 0 first (the
returned position and error of that inner Seek are discarded by the
source). -/
def TorrentReadSeeker.implicitSeek (trs : TorrentReadSeeker) : TorrentReadSeeker :=
  if trs.reader.CurrentPos < trs.file.Offset then (trs.Seek 0 seekStart).1 else trs

/-- Lines 25-30 of torrentReadSeeker.Read: the requested size, clamped so
that the read never crosses the end of the file. The result is an Int
because the Go source performs the arithmetic on int64: when the current
position is already past the file's end the clamped size is negative. -/
def TorrentReadSeeker.clampedSize (trs : TorrentReadSeeker) (p : List Nat) : Int :=
  let bufsize : Int := (p.length : Int)
  let eof := trs.file.Offset + trs.file.Length
  if trs.reader.CurrentPos + bufsize > eof then eof - trs.reader.CurrentPos else bufsize

/-- Lines 25-41 of torrentReadSeeker.Read, after the implicit seek: clamp
the size; report EOF when the clamped size is zero; allocate the
intermediate buffer (Go's make faults when the clamped size is negative);
perform the underlying blocking read, whose delivered count and error the
source discards; finally report copy(p, buf), the minimum of the two
buffer lengths. The PrioritizeRegion call on line 38 is a latency hint to
the engine with no effect on the bytes returned and is not modelled. -/
def TorrentReadSeeker.readCore (trs : TorrentReadSeeker) (p : List Nat) : ReadResult :=
  let bufsize := trs.clampedSize p
  if bufsize = 0 then .ok trs p 0 (some "EOF")
  else if bufsize < 0 then .fault
  else
    let size := bufsize.toNat
    let rr := trs.reader.read size
    let buf := rr.2.1
    let n := min p.length buf.length
    .ok { trs with reader := rr.1 } (buf.take n ++ p.drop n) n none

/-- Transliteration of torrentReadSeeker.Read
(src/proxy/torrent_read_seeker.go lines 18-42): the implicit
seek-to-start-of-file followed by the clamped, prioritized, blocking
read. -/
def TorrentReadSeeker.Read (trs : TorrentReadSeeker) (p : List Nat) : ReadResult :=
  trs.implicitSeek.readCore p

/-- The per-file record of a status snapshot (struct TorrentFile in
src/proxy/proxy.go). The Complete field is a Go float32; since the two
counters feeding it are small integers (exactly representable), it is
modelled as `Option ℚ` where `none` stands for the IEEE NaN produced by
the float division 0.0 / 0.0. -/
structure TorrentFileStatus where
  path : String
  length : Int
  complete : Option ℚ
deriving Repr, DecidableEq

/-- The struct TorrentStatus of src/proxy/proxy.go. -/
structure TorrentStatus where
  status : String
  hash : String
  name : String
  files : List TorrentFileStatus
deriving Repr, DecidableEq

/-- The slice of the engine's torrent handle that Status reads: whether
Info() is non-nil yet, Name(), InfoHash().HexString(), and Files(). -/
structure Torrent where
  infoAvailable : Bool
  name : String
  hashHex : String
  files : List EngineFile
deriving Repr, DecidableEq

/-- The two float32 counters of the Status loop for one file: `total`
counts every entry of the file's State() vector and `complete` counts the
entries with PieceState.Complete set. Piece counts are far below 2 to the
24th, so the float32 counters hold them exactly. -/
def pieceCounters (states : List Bool) : Nat × Nat :=
  (states.length, (states.filter (fun b => b)).length)

/-- The Go expression `complete / total` on the two float32 counters. For
`total > 0` the quotient is the exact fraction (float rounding is not
modelled; it never moves the value outside [0, 1] nor on or off the
endpoints for these operands). For `total = 0` the loop invariant
`complete ≤ total` forces `complete = 0`, and IEEE 0.0 / 0.0 is NaN,
modelled as `none`. -/
def float32Quotient (complete total : Nat) : Option ℚ :=
  if total = 0 then none else some ((complete : ℚ) / (total : ℚ))

/-- Transliteration of TorrentProxy.Status (src/proxy/proxy.go lines
133-168): readiness is recomputed from Info() on every call, and each
file's Complete field is the float32 quotient of its two piece
counters. -/
def Status (t : Torrent) : TorrentStatus :=
  { status := if t.infoAvailable then "ready" else "pending"
    hash := t.hashHex
    name := t.name
    files := t.files.map fun f =>
      let c := pieceCounters f.states
      { path := f.path, length := f.length, complete := float32Quotient c.2 c.1 } }

/-- The loop of resolveDHTNodes (src/proxy/helpers.go lines 68-74):
resolve each host:port entry in order through the external resolver
net.ResolveUDPAddr + dht.NewAddr (modelled by the `resolve` parameter,
producing the address's string form), returning the addresses accumulated
so far together with the error as soon as an entry fails to resolve. -/
def resolveDHTLoop (resolve : String → Except String String) :
    List String → List String → List String × Option String
  | [], acc => (acc, none)
  | h :: t, acc =>
    match resolve h with
    | .error e => (acc, some e)
    | .ok a => resolveDHTLoop resolve t (acc ++ [a])

/-- Transliteration of resolveDHTNodes (src/proxy/helpers.go lines 67-81):
run the resolution loop, and if the accumulated list is empty fall back to
the discovery subsystem's defaults dht.GlobalBootstrapAddrs(), modelled by
the `bootstrap` pair of list and error. (The variant of this function in
src/unnamed/part_001 omits the fallback; the command-line wrapper fills in
the defaults instead there. The claims name src/proxy/helpers.go, which is
modelled here.) -/
def resolveDHTNodes (resolve : String → Except String String)
    (bootstrap : List String × Option String) (nodes : List String) :
    List String × Option String :=
  match resolveDHTLoop resolve nodes [] with
  | (acc, some e) => (acc, some e)
  | (acc, none) => if acc.length = 0 then bootstrap else (acc, none)

/-- The slice of net.URL the resolver reads: the scheme. -/
structure Url where
  scheme : String
deriving Repr, DecidableEq

/-- The slice of http.Response the resolver reads: the numeric status
code, the status text, and the body. -/
structure Response where
  statusCode : Nat
  status : String
  body : String
deriving Repr, DecidableEq

/-- Opaque stand-in for metainfo.MetaInfo, the parsed torrent
descriptor. -/
structure MetaInfo where
  data : String
deriving Repr, DecidableEq

/-- The slice of torrent.TorrentSpec the repository reads. -/
structure TorrentSpec where
  infoHash : String
  displayName : String
deriving Repr, DecidableEq

/-- The external collaborators of torrentSpecFromURL, passed as explicit
functions: url.Parse, torrent.TorrentSpecFromMagnetURI, http.Get,
metainfo.Load and torrent.TorrentSpecFromMetaInfo. -/
structure SpecExternals where
  urlParse : String → Except String Url
  magnetDecode : String → Except String TorrentSpec
  httpGet : String → Except String Response
  metainfoLoad : String → Except String MetaInfo
  specFromMetaInfo : MetaInfo → TorrentSpec

/-- Transliteration of torrentSpecFromURL (src/proxy/helpers.go lines
15-63): reject empty input; parse the URL (propagating a parse failure);
reject an empty scheme; decode a magnet URL, wrapping a decode failure;
reject any scheme other than magnet, http and https, naming it; fetch an
http or https URL, wrapping a network failure, turning a non-200 response
into an error carrying the status text, and wrapping a descriptor-parse
failure; on success build the spec from the fetched descriptor. -/
def torrentSpecFromURL (ext : SpecExternals) (input : String) :
    Except String TorrentSpec :=
  if input = "" then .error "URL not specified"
  else
    match ext.urlParse input with
    | .error e => .error e
    | .ok u =>
      if u.scheme = "" then .error "Unable to parse URL"
      else if u.scheme = "magnet" then
        match ext.magnetDecode input with
        | .error e => .error ("Malformed magnet url: " ++ e)
        | .ok s => .ok s
      else if u.scheme ≠ "http" ∧ u.scheme ≠ "https" then
        .error ("Unknown URL scheme: " ++ u.scheme)
      else
        match ext.httpGet input with
        | .error e => .error ("Error fetching: " ++ e)
        | .ok resp =>
          if resp.statusCode ≠ 200 then .error resp.status
          else
            match ext.metainfoLoad resp.body with
            | .error e => .error ("Not a valid torrent file: " ++ e)
            | .ok mi => .ok (ext.specFromMetaInfo mi)

/-- Outcomes of the four external startup steps of NewTorrentProxy, in the
order the source performs them: resolveDHTNodes, torrentSpecFromURL,
torrent.NewClient (success means the engine client is constructed and its
network listener running), and net.Listen on the HTTP address. -/
structure StartupEnv where
  dhtResult : Except String (List String)
  specResult : Except String TorrentSpec
  clientResult : Except String Unit
  listenResult : Except String Unit

/-- Observable outcome of proxy construction: the error returned to the
caller (none on success), whether a background engine client is running
afterward, and whether the HTTP listener is serving afterward. -/
structure StartupState where
  err : Option String
  engineRunning : Bool
  httpListenerRunning : Bool
deriving Repr, DecidableEq

/-- Transliteration of TorrentProxy.startTorrentClient (src/proxy/proxy.go
lines 57-96): resolve the DHT seeds (wrapping a failure), resolve the
torrent URL (wrapping a failure), then construct and start the engine
client. The boolean reports whether an engine client is left running. -/
def startTorrentClient (env : StartupEnv) : Bool × Option String :=
  match env.dhtResult with
  | .error e => (false, some ("Error resolving DHT node: " ++ e))
  | .ok _ =>
    match env.specResult with
    | .error e => (false, some ("Invalid torrent URL: " ++ e))
    | .ok _ =>
      match env.clientResult with
      | .error e => (false, some e)
      | .ok _ => (true, none)

/-- Transliteration of TorrentProxy.startHTTPServer (src/proxy/proxy.go
lines 99-119): bind the HTTP listener, returning the bind error; on
success the serving goroutine is started. The boolean reports whether the
listener is left running. -/
def startHTTPServer (env : StartupEnv) : Bool × Option String :=
  match env.listenResult with
  | .error e => (false, some e)
  | .ok _ => (true, none)

/-- Transliteration of NewTorrentProxy (src/proxy/proxy.go lines 213-232):
start the torrent client, then the HTTP server; the first failure is
returned to the caller immediately, and nothing already started is torn
down on a later failure. -/
def NewTorrentProxy (env : StartupEnv) : StartupState :=
  match startTorrentClient env with
  | (eng, some e) => { err := some e, engineRunning := eng, httpListenerRunning := false }
  | (eng, none) =>
    match startHTTPServer env with
    | (_, some e) => { err := some e, engineRunning := eng, httpListenerRunning := false }
    | (_, none) => { err := none, engineRunning := eng, httpListenerRunning := true }

/-- C1: Seek with whence = start targets fileOffset + offset, clamped down
to fileOffset + fileLength when it overshoots; with whence = end it
targets (fileOffset + fileLength) - offset, clamped up to fileOffset when
it undershoots; in every case (start, current and end alike) the computed
target is delegated to the underlying reader and the position returned to
the caller is the reader's resulting whole-torrent position minus the
file's offset. -/
theorem seek_translates_and_clamps (trs : TorrentReadSeeker) (o : Int) :
    ((trs.Seek o seekStart).1.reader.pos
        = min (trs.file.offset + o) (trs.file.offset + trs.file.length)
      ∧ (trs.Seek o seekStart).2
        = (trs.Seek o seekStart).1.reader.pos - trs.file.offset)
    ∧ ((trs.Seek o seekEnd).1.reader.pos
        = max ((trs.file.offset + trs.file.length) - o) trs.file.offset
      ∧ (trs.Seek o seekEnd).2
        = (trs.Seek o seekEnd).1.reader.pos - trs.file.offset)
    ∧ (∀ w, w = seekStart ∨ w = seekCurrent ∨ w = seekEnd →
        (trs.Seek o w).2 = (trs.Seek o w).1.reader.pos - trs.file.offset) := by
  refine ⟨⟨?_, ?_⟩, ⟨?_, ?_⟩, fun w _ => ?_⟩ <;>
    simp only [TorrentReadSeeker.Seek, Reader.seek, seekStart, seekCurrent, seekEnd,
      EngineFile.Offset, EngineFile.Length] <;>
    split_ifs <;> omega

/-- Witness for C1 at a concrete adapter and a current-relative seek. -/
theorem seek_translates_and_clamps_witness :
    ((⟨⟨[], 5, 1⟩, ⟨"w", 2, 3, []⟩⟩ : TorrentReadSeeker).Seek 4 seekCurrent).2
      = ((⟨⟨[], 5, 1⟩, ⟨"w", 2, 3, []⟩⟩ : TorrentReadSeeker).Seek 4 seekCurrent).1.reader.pos
        - 2 :=
  (seek_translates_and_clamps ⟨⟨[], 5, 1⟩, ⟨"w", 2, 3, []⟩⟩ 4).2.2 seekCurrent
    (Or.inr (Or.inl rfl))

/-- Unfolding lemma: a start-relative Seek leaves the torrent content, the
chunk bound and the file untouched and moves the reader to the clamped
target. -/
theorem seekStart_fst (t : TorrentReadSeeker) (o : Int) :
    (t.Seek o seekStart).1
      = ⟨{ t.reader with pos :=
            if t.file.offset + o > t.file.offset + t.file.length
            then t.file.offset + t.file.length else t.file.offset + o }, t.file⟩ := rfl

/-- Unfolding lemma: a current-relative Seek delegates the offset to the
reader unclamped. -/
theorem seekCurrent_fst (t : TorrentReadSeeker) (o : Int) :
    (t.Seek o seekCurrent).1 = ⟨{ t.reader with pos := t.reader.pos + o }, t.file⟩ := rfl

/-- Unfolding lemma: an end-relative Seek leaves everything but the reader
position untouched and moves the reader to the clamped target. -/
theorem seekEnd_fst (t : TorrentReadSeeker) (o : Int) :
    (t.Seek o seekEnd).1
      = ⟨{ t.reader with pos :=
            if (t.file.offset + t.file.length) - o < t.file.offset
            then t.file.offset else (t.file.offset + t.file.length) - o }, t.file⟩ := rfl

/-- Unfolding lemma: the position an end-relative Seek reports. -/
theorem seekEnd_snd (t : TorrentReadSeeker) (o : Int) :
    (t.Seek o seekEnd).2
      = (if (t.file.offset + t.file.length) - o < t.file.offset
         then t.file.offset else (t.file.offset + t.file.length) - o)
        - t.file.offset := rfl

/-- When the reader already sits at or inside the file and the clamped
size is zero, Read reports EOF without moving anything. -/
theorem read_at_eof (t : TorrentReadSeeker) (p : List Nat)
    (h1 : ¬t.reader.pos < t.file.offset) (h2 : t.clampedSize p = 0) :
    t.Read p = .ok t p 0 (some "EOF") := by
  have himp : t.implicitSeek = t := by
    unfold TorrentReadSeeker.implicitSeek
    rw [if_neg]
    exact h1
  unfold TorrentReadSeeker.Read
  rw [himp]
  unfold TorrentReadSeeker.readCore
  rw [h2]
  norm_num

/-- The implicit seek never changes the file the adapter points at. -/
theorem implicitSeek_file (t : TorrentReadSeeker) : t.implicitSeek.file = t.file := by
  unfold TorrentReadSeeker.implicitSeek
  split
  · exact rfl
  · exact rfl

/-- C3: when the underlying reader's whole-torrent position is before the
target file's offset, Read first implicitly seeks to file-relative
position 0, so reading without an explicit initial seek produces exactly
the same result (same bytes, same reported count and error, same final
adapter state) as an explicit Seek (0, start) followed by the same
Read. -/
theorem read_without_seek_equals_seek_zero_then_read
    (trs : TorrentReadSeeker) (p : List Nat)
    (h : trs.reader.pos < trs.file.offset) :
    trs.Read p = ((trs.Seek 0 seekStart).1).Read p := by
  have h1 : trs.implicitSeek = (trs.Seek 0 seekStart).1 := by
    simp [TorrentReadSeeker.implicitSeek, Reader.CurrentPos, EngineFile.Offset, h]
  have h2 : ((trs.Seek 0 seekStart).1).implicitSeek = (trs.Seek 0 seekStart).1 := by
    unfold TorrentReadSeeker.implicitSeek
    split
    · exact rfl
    · exact rfl
  unfold TorrentReadSeeker.Read
  rw [h1, h2]

/-- Witness for C3: a fresh adapter over a file at offset 2 with the
reader still at position 0. -/
theorem read_without_seek_equals_seek_zero_then_read_witness :
    (⟨⟨[9, 8, 7, 6, 5, 4], 0, 10⟩, ⟨"w", 2, 3, []⟩⟩ : TorrentReadSeeker).Read [0, 0]
      = (((⟨⟨[9, 8, 7, 6, 5, 4], 0, 10⟩, ⟨"w", 2, 3, []⟩⟩ :
            TorrentReadSeeker).Seek 0 seekStart).1).Read [0, 0] :=
  read_without_seek_equals_seek_zero_then_read
    ⟨⟨[9, 8, 7, 6, 5, 4], 0, 10⟩, ⟨"w", 2, 3, []⟩⟩ [0, 0] (by decide)

/-- C4 (evaluating the code at the failing input): over a ten-byte file at
offset 0, with an underlying reader that delivers at most four bytes per
call, a Read of a ten-byte buffer retrieves only four bytes (the reader
advances from 0 to 4) yet reports a count of 10 with a nil error, the
undelivered six bytes surfacing as zero filler. The source discards the
delivered count and the error of the underlying read and reports
copy(p, buf) over the full clamped buffer, so a short read is not
reported as fewer bytes. -/
theorem read_misreports_short_read :
    (TorrentReadSeeker.Read
      ⟨⟨[1, 2, 3, 4, 5, 6, 7, 8, 9, 10], 0, 4⟩, ⟨"f", 0, 10, []⟩⟩
      (List.replicate 10 0))
      = .ok ⟨⟨[1, 2, 3, 4, 5, 6, 7, 8, 9, 10], 4, 4⟩, ⟨"f", 0, 10, []⟩⟩
          [1, 2, 3, 4, 0, 0, 0, 0, 0, 0] 10 none := by decide

/-- C5 (evaluating the code at the failing input): for a torrent holding a
single zero-length file, whose State() vector is empty, Status reports a
completion fraction of NaN (the float32 quotient 0.0 / 0.0, modelled as
none), not 0.0. -/
theorem status_zero_piece_file_is_nan :
    (Status ⟨true, "t", "cafe", [⟨"empty.txt", 0, 0, []⟩]⟩).files
      = [⟨"empty.txt", 0, none⟩] := rfl

/-- C2: whenever the clamped read size is zero, Read fails with the EOF
error and transfers zero bytes; and for a file with offset 0 (of length at
least 10, lying inside the torrent, with the reader willing to deliver at
least 10 bytes per call), seeking to (10, end) yields position
length - 10, a first Read into a larger buffer returns exactly 10 bytes
with no error, and the next Read fails with EOF transferring zero
bytes. -/
theorem read_eof_when_no_bytes_remain :
    (∀ (trs : TorrentReadSeeker) (p : List Nat),
        trs.implicitSeek.clampedSize p = 0 →
        trs.Read p = .ok trs.implicitSeek p 0 (some "EOF"))
    ∧ ∀ (c : List Nat) (L : Int) (mc : Nat) (p0 : Int) (p : List Nat)
        (path : String) (st : List Bool),
        10 ≤ L → L ≤ (c.length : Int) → 10 ≤ mc → 10 < p.length →
        (TorrentReadSeeker.Seek ⟨⟨c, p0, mc⟩, ⟨path, 0, L, st⟩⟩ 10 seekEnd).2 = L - 10
        ∧ ∃ t q,
            ((TorrentReadSeeker.Seek ⟨⟨c, p0, mc⟩, ⟨path, 0, L, st⟩⟩ 10 seekEnd).1.Read p
              = .ok t q 10 none)
            ∧ t.Read p = .ok t p 0 (some "EOF") := by
  constructor
  · intro trs p h
    unfold TorrentReadSeeker.Read
    unfold TorrentReadSeeker.readCore
    rw [h]
    norm_num
  · intro c L mc p0 p path st h10 hcl hmc hp
    constructor
    · rw [seekEnd_snd]
      dsimp only
      rw [if_neg (by omega)]
      omega
    · have hseek : (TorrentReadSeeker.Seek ⟨⟨c, p0, mc⟩, ⟨path, 0, L, st⟩⟩ 10 seekEnd).1
          = ⟨⟨c, L - 10, mc⟩, ⟨path, 0, L, st⟩⟩ := by
        rw [seekEnd_fst]
        dsimp only
        rw [if_neg (by omega)]
        congr 2
        omega
      rw [hseek]
      have himp : (⟨⟨c, L - 10, mc⟩, ⟨path, 0, L, st⟩⟩ :
          TorrentReadSeeker).implicitSeek = ⟨⟨c, L - 10, mc⟩, ⟨path, 0, L, st⟩⟩ := by
        unfold TorrentReadSeeker.implicitSeek
        rw [if_neg]
        show ¬(L - 10 < (0 : Int))
        omega
      have hclamp : (⟨⟨c, L - 10, mc⟩, ⟨path, 0, L, st⟩⟩ :
          TorrentReadSeeker).clampedSize p = 10 := by
        simp only [TorrentReadSeeker.clampedSize, Reader.CurrentPos, EngineFile.Offset,
          EngineFile.Length]
        rw [if_pos (by omega)]
        omega
      unfold TorrentReadSeeker.Read
      rw [himp]
      unfold TorrentReadSeeker.readCore
      rw [hclamp]
      norm_num
      unfold Reader.read
      dsimp only
      have ht : (10 : Int).toNat = 10 := rfl
      rw [ht]
      have hn : min 10 (min mc (c.length - (L - 10).toNat)) = 10 := by omega
      rw [hn]
      refine ⟨_, ⟨rfl, ?_⟩, ?_⟩
      · simp only [List.length_append, List.length_take, List.length_drop,
          List.length_replicate]
        omega
      · refine read_at_eof _ p ?_ ?_
        · dsimp only
          push_cast
          omega
        · simp only [TorrentReadSeeker.clampedSize, Reader.CurrentPos, EngineFile.Offset,
            EngineFile.Length]
          rw [if_pos (by push_cast; omega)]
          push_cast
          omega

/-- Witness for C2: a reader parked at the end of a two-byte file reports
EOF, and the concrete seek of the scenario lands at length - 10. -/
theorem read_eof_when_no_bytes_remain_witness :
    ((⟨⟨[5, 5], 2, 9⟩, ⟨"w", 0, 2, []⟩⟩ : TorrentReadSeeker).Read [0]
        = .ok ⟨⟨[5, 5], 2, 9⟩, ⟨"w", 0, 2, []⟩⟩ [0] 0 (some "EOF"))
    ∧ (TorrentReadSeeker.Seek ⟨⟨List.range 12, 0, 100⟩, ⟨"x", 0, 12, []⟩⟩ 10 seekEnd).2
        = 12 - 10 :=
  ⟨read_eof_when_no_bytes_remain.1 ⟨⟨[5, 5], 2, 9⟩, ⟨"w", 0, 2, []⟩⟩ [0] (by decide),
   (read_eof_when_no_bytes_remain.2 (List.range 12) 12 100 0 (List.replicate 11 0) "x" []
      (by decide) (by decide) (by decide) (by decide)).1⟩

/-- C8: the locator resolver returns a TorrentSpec exactly when resolution
succeeds, and fails in each enumerated case: empty input; a parsed URI
with an empty scheme; a magnet input whose decode fails, the error
wrapping the decode failure; an http or https input whose GET fails,
whose response status is not 200 (the error carrying the status text), or
whose 200 body does not parse as a torrent descriptor; and any other
scheme, the error naming that scheme. -/
theorem spec_resolution_case_analysis (ext : SpecExternals) (input : String) (u : Url) :
    torrentSpecFromURL ext "" = .error "URL not specified"
    ∧ (input ≠ "" → ext.urlParse input = .ok u →
        (u.scheme = "" → torrentSpecFromURL ext input = .error "Unable to parse URL")
        ∧ (u.scheme = "magnet" →
            (∀ e, ext.magnetDecode input = .error e →
              torrentSpecFromURL ext input = .error ("Malformed magnet url: " ++ e))
            ∧ ∀ s, ext.magnetDecode input = .ok s → torrentSpecFromURL ext input = .ok s)
        ∧ (u.scheme ≠ "" → u.scheme ≠ "magnet" → u.scheme ≠ "http" → u.scheme ≠ "https" →
            torrentSpecFromURL ext input = .error ("Unknown URL scheme: " ++ u.scheme))
        ∧ ((u.scheme = "http" ∨ u.scheme = "https") →
            (∀ e, ext.httpGet input = .error e →
              torrentSpecFromURL ext input = .error ("Error fetching: " ++ e))
            ∧ ∀ resp, ext.httpGet input = .ok resp →
                (resp.statusCode ≠ 200 → torrentSpecFromURL ext input = .error resp.status)
                ∧ (resp.statusCode = 200 →
                    (∀ e, ext.metainfoLoad resp.body = .error e →
                      torrentSpecFromURL ext input
                        = .error ("Not a valid torrent file: " ++ e))
                    ∧ ∀ mi, ext.metainfoLoad resp.body = .ok mi →
                      torrentSpecFromURL ext input = .ok (ext.specFromMetaInfo mi)))
        ∧ ((∃ s, torrentSpecFromURL ext input = .ok s) ↔
            ((u.scheme = "magnet" ∧ ∃ s, ext.magnetDecode input = .ok s)
            ∨ ((u.scheme = "http" ∨ u.scheme = "https")
                ∧ ∃ resp, ext.httpGet input = .ok resp ∧ resp.statusCode = 200
                  ∧ ∃ mi, ext.metainfoLoad resp.body = .ok mi)))) := by
  constructor
  · unfold torrentSpecFromURL
    simp
  · intro hne hparse
    have hbase : torrentSpecFromURL ext input
        = (if u.scheme = "" then .error "Unable to parse URL"
           else if u.scheme = "magnet" then
             match ext.magnetDecode input with
             | .error e => .error ("Malformed magnet url: " ++ e)
             | .ok s => .ok s
           else if u.scheme ≠ "http" ∧ u.scheme ≠ "https" then
             .error ("Unknown URL scheme: " ++ u.scheme)
           else
             match ext.httpGet input with
             | .error e => .error ("Error fetching: " ++ e)
             | .ok resp =>
               if resp.statusCode ≠ 200 then .error resp.status
               else
                 match ext.metainfoLoad resp.body with
                 | .error e => .error ("Not a valid torrent file: " ++ e)
                 | .ok mi => .ok (ext.specFromMetaInfo mi)) := by
      unfold torrentSpecFromURL
      rw [if_neg hne, hparse]
    refine ⟨?_, ?_, ?_, ?_, ?_⟩
    · intro h0
      rw [hbase, if_pos h0]
    · intro hm
      rw [hbase, if_neg (by simp [hm]), if_pos hm]
      constructor
      · intro e he
        simp only [he]
      · intro s hs
        simp only [hs]
    · intro h1 h2 h3 h4
      rw [hbase, if_neg h1, if_neg h2, if_pos ⟨h3, h4⟩]
    · intro hweb
      have h1 : u.scheme ≠ "" := by rcases hweb with h | h <;> simp [h]
      have h2 : u.scheme ≠ "magnet" := by rcases hweb with h | h <;> simp [h]
      have h3 : ¬(u.scheme ≠ "http" ∧ u.scheme ≠ "https") := by
        rcases hweb with h | h <;> simp [h]
      rw [hbase, if_neg h1, if_neg h2, if_neg h3]
      constructor
      · intro e he
        simp only [he]
      · intro resp hresp
        simp only [hresp]
        constructor
        · intro hcode
          rw [if_pos hcode]
        · intro hcode
          rw [if_neg (by simp [hcode])]
          constructor
          · intro e he
            simp only [he]
          · intro mi hmi
            simp only [hmi]
    · rw [hbase]
      by_cases h0 : u.scheme = ""
      · simp [h0]
      · by_cases hm : u.scheme = "magnet"
        · rw [if_neg h0, if_pos hm]
          rcases hdec : ext.magnetDecode input with e | s <;> simp [hdec, hm]
        · by_cases hweb : u.scheme = "http" ∨ u.scheme = "https"
          · have hcond : ¬(u.scheme ≠ "http" ∧ u.scheme ≠ "https") := by tauto
            rw [if_neg h0, if_neg hm, if_neg hcond]
            rcases hget : ext.httpGet input with e | resp
            · simp [hget, hm]
            · by_cases hcode : resp.statusCode = 200
              · rw [show (match Except.ok resp with
                    | .error e => Except.error ("Error fetching: " ++ e)
                    | .ok resp =>
                      if resp.statusCode ≠ 200 then Except.error resp.status
                      else
                        match ext.metainfoLoad resp.body with
                        | .error e =>
                            Except.error ("Not a valid torrent file: " ++ e)
                        | .ok mi => Except.ok (ext.specFromMetaInfo mi))
                    = if resp.statusCode ≠ 200 then Except.error resp.status
                      else
                        match ext.metainfoLoad resp.body with
                        | .error e =>
                            Except.error ("Not a valid torrent file: " ++ e)
                        | .ok mi => Except.ok (ext.specFromMetaInfo mi) from rfl,
                  if_neg (by simp [hcode])]
                rcases hload : ext.metainfoLoad resp.body with e | mi
                · simp [hload, hget, hm, hcode]
                · simp [hload, hget, hm, hcode, hweb]
              · simp [hget, hm, hcode]
          · have hcond : u.scheme ≠ "http" ∧ u.scheme ≠ "https" := by tauto
            rw [if_neg h0, if_neg hm, if_pos hcond]
            simp [hm, hweb]

/-- Witness for C8: a failing magnet decode and a non-200 fetch, each at a
concrete externals record and locator. -/
theorem spec_resolution_case_analysis_witness :
    torrentSpecFromURL
        (⟨fun _ => .ok ⟨"magnet"⟩, fun _ => .error "bad", fun _ => .error "down",
          fun _ => .error "x", fun _ => ⟨"h", "n"⟩⟩ : SpecExternals) "magnet:x"
      = .error ("Malformed magnet url: " ++ "bad")
    ∧ torrentSpecFromURL
        (⟨fun _ => .ok ⟨"http"⟩, fun _ => .error "bad",
          fun _ => .ok ⟨404, "404 Not Found", "b"⟩,
          fun _ => .error "x", fun _ => ⟨"h", "n"⟩⟩ : SpecExternals) "http://x"
      = .error "404 Not Found" :=
  ⟨(((spec_resolution_case_analysis
        ⟨fun _ => .ok ⟨"magnet"⟩, fun _ => .error "bad", fun _ => .error "down",
          fun _ => .error "x", fun _ => ⟨"h", "n"⟩⟩ "magnet:x" ⟨"magnet"⟩).2
      (by decide) rfl).2.1 rfl).1 "bad" rfl,
   ((((spec_resolution_case_analysis
        ⟨fun _ => .ok ⟨"http"⟩, fun _ => .error "bad",
          fun _ => .ok ⟨404, "404 Not Found", "b"⟩,
          fun _ => .error "x", fun _ => ⟨"h", "n"⟩⟩ "http://x" ⟨"http"⟩).2
      (by decide) rfl).2.2.2.1 (Or.inl rfl)).2 ⟨404, "404 Not Found", "b"⟩ rfl).1
     (by decide)⟩


/-- C10: Read is safe only under the precondition that the reader's
whole-torrent position is at most fileOffset + fileLength. Strictly beyond
it the clamped size is negative, the zero-size EndOfFile check does not
trigger, and the buffer allocation faults; at or below it Read returns
normally. Such positions are reachable because Seek with whence = current
delegates to the underlying reader without any clamping. -/
theorem read_faults_beyond_file_end (trs : TorrentReadSeeker) (p : List Nat)
    (hlen : 0 ≤ trs.file.length) :
    (trs.file.offset + trs.file.length < trs.reader.pos → trs.Read p = .fault)
    ∧ (trs.reader.pos ≤ trs.file.offset + trs.file.length →
        ∃ t q n e, trs.Read p = .ok t q n e)
    ∧ (∀ o, ((trs.Seek o seekCurrent).1).reader.pos = trs.reader.pos + o) := by
  refine ⟨?_, ?_, fun o => by rw [seekCurrent_fst]⟩
  · intro h
    have e1 : trs.implicitSeek = trs := by
      unfold TorrentReadSeeker.implicitSeek
      rw [if_neg]
      show ¬(trs.reader.pos < trs.file.offset)
      omega
    have e2 : trs.clampedSize p = trs.file.offset + trs.file.length - trs.reader.pos := by
      simp only [TorrentReadSeeker.clampedSize, Reader.CurrentPos, EngineFile.Offset,
        EngineFile.Length]
      rw [if_pos (by omega)]
    unfold TorrentReadSeeker.Read
    rw [e1]
    unfold TorrentReadSeeker.readCore
    rw [e2, if_neg (by omega), if_pos (by omega)]
  · intro h
    have hfile : trs.implicitSeek.file = trs.file := implicitSeek_file trs
    have hpos : trs.implicitSeek.reader.pos ≤ trs.file.offset + trs.file.length := by
      unfold TorrentReadSeeker.implicitSeek
      split
      · rw [seekStart_fst]
        simp only
        split_ifs <;> omega
      · exact h
    have hclamp : 0 ≤ trs.implicitSeek.clampedSize p := by
      simp only [TorrentReadSeeker.clampedSize, Reader.CurrentPos, EngineFile.Offset,
        EngineFile.Length, hfile]
      split_ifs <;> omega
    unfold TorrentReadSeeker.Read
    unfold TorrentReadSeeker.readCore
    by_cases h0 : trs.implicitSeek.clampedSize p = 0
    · rw [if_pos h0]
      exact ⟨_, _, _, _, rfl⟩
    · rw [if_neg h0, if_neg (by omega)]
      exact ⟨_, _, _, _, rfl⟩

/-- Witness for C10: a reader parked four bytes past the end of a file of
length 5 at offset 0 makes Read fault. -/
theorem read_faults_beyond_file_end_witness :
    (⟨⟨[7, 7, 7, 7, 7], 9, 3⟩, ⟨"f", 0, 5, []⟩⟩ : TorrentReadSeeker).Read [0] = .fault :=
  (read_faults_beyond_file_end ⟨⟨[7, 7, 7, 7, 7], 9, 3⟩, ⟨"f", 0, 5, []⟩⟩ [0]
    (by decide)).1 (by decide)

/-- C6 counterexample: with a two-entry seed list whose second entry is
unresolvable, resolveDHTNodes returns the error together with the first
entry's resolved address — the returned list is not empty, so a partial
list does accompany the failure. -/
theorem resolve_returns_partial_list :
    resolveDHTNodes
        (fun s => if s = "one.example:1234" then .ok "192.0.2.1:1234"
                  else .error "no such host")
        ([], none) ["one.example:1234", "bad_host:1234"]
      = (["192.0.2.1:1234"], some "no such host")
    ∧ (resolveDHTNodes
        (fun s => if s = "one.example:1234" then .ok "192.0.2.1:1234"
                  else .error "no such host")
        ([], none) ["one.example:1234", "bad_host:1234"]).1 ≠ [] := by
  constructor
  · rfl
  · decide

/-- C6 amended: resolution stops at the first unresolvable entry (the
entries after it are never consulted) and fails with that entry's error,
and the list returned alongside the error holds exactly the addresses of
the entries resolved before the failing one — in particular it is empty
exactly when the first entry is the unresolvable one. -/
theorem resolve_fails_at_first_bad_entry
    (resolve : String → Except String String)
    (bootstrap : List String × Option String)
    (good addrs : List String) (bad e : String) (rest : List String)
    (hgood : List.Forall₂ (fun s a => resolve s = .ok a) good addrs)
    (hbad : resolve bad = .error e) :
    resolveDHTNodes resolve bootstrap (good ++ bad :: rest) = (addrs, some e) := by
  have hloop : ∀ acc, resolveDHTLoop resolve (good ++ bad :: rest) acc
      = (acc ++ addrs, some e) := by
    induction hgood with
    | nil =>
      intro acc
      simp [resolveDHTLoop, hbad]
    | @cons a b l1 l2 h tail ih =>
      intro acc
      simp only [List.cons_append, resolveDHTLoop, h]
      exact (ih (acc ++ [b])).trans (by simp)
  unfold resolveDHTNodes
  rw [hloop]
  simp

/-- Witness for C6 at a concrete resolver: one good entry, then one bad
entry, then one entry that is never reached. -/
theorem resolve_fails_at_first_bad_entry_witness :
    resolveDHTNodes
        (fun s => if s = "a.example:1" then .ok "10.0.0.1:1" else .error "boom")
        (["d.example:9"], none) (["a.example:1"] ++ "bad:2" :: ["c.example:3"])
      = (["10.0.0.1:1"], some "boom") :=
  resolve_fails_at_first_bad_entry _ _ _ _ _ _ _
    (List.Forall₂.cons rfl List.Forall₂.nil) rfl

/-- C7: for the empty seed list, resolveDHTNodes hands back exactly the
discovery subsystem's default bootstrap outcome: when the defaults resolve
without error the call succeeds carrying the default list, and a nonempty
default list yields a nonempty result rather than an empty one. -/
theorem resolve_empty_returns_bootstrap
    (resolve : String → Except String String) (addrs : List String) :
    resolveDHTNodes resolve (addrs, none) [] = (addrs, none)
    ∧ (addrs ≠ [] → (resolveDHTNodes resolve (addrs, none) []).1 ≠ []) :=
  ⟨rfl, fun h => h⟩

/-- Witness for C7 with a one-element default bootstrap list. -/
theorem resolve_empty_returns_bootstrap_witness :
    resolveDHTNodes (fun _ => .error "unused") (["router.example:6881"], none) []
        = (["router.example:6881"], none)
    ∧ (resolveDHTNodes (fun _ => .error "unused") (["router.example:6881"], none) []).1
        ≠ [] :=
  ⟨(resolve_empty_returns_bootstrap (fun _ => .error "unused") ["router.example:6881"]).1,
   (resolve_empty_returns_bootstrap (fun _ => .error "unused") ["router.example:6881"]).2
     (by decide)⟩

/-- C9 counterexample: with the seed list, the torrent URL and the engine
client all succeeding and the HTTP listen address unusable,
NewTorrentProxy fails synchronously with the bind error, yet the
already-started engine client is left running (the repository's own test
closes the returned proxy for exactly this reason). -/
theorem startup_leaves_engine_running :
    NewTorrentProxy ⟨.ok [], .ok ⟨"cafe", "name"⟩, .ok (),
        .error "listen tcp: address 99999: invalid port"⟩
      = ⟨some "listen tcp: address 99999: invalid port", true, false⟩ := rfl

/-- C9 amended: every startup-phase failure (seed resolution, spec
resolution, engine construction, HTTP bind) is returned synchronously and
leaves no HTTP listener running; failures up to and including engine
construction also leave no engine client running; but an HTTP-bind
failure occurs after the engine client has started and leaves it
running. -/
theorem startup_failures_are_synchronous (env : StartupEnv) :
    (((∃ e, env.dhtResult = .error e) ∨ (∃ e, env.specResult = .error e)
        ∨ (∃ e, env.clientResult = .error e) ∨ (∃ e, env.listenResult = .error e)) →
      (∃ e, (NewTorrentProxy env).err = some e)
      ∧ (NewTorrentProxy env).httpListenerRunning = false)
    ∧ (((∃ e, env.dhtResult = .error e) ∨ (∃ e, env.specResult = .error e)
        ∨ (∃ e, env.clientResult = .error e)) →
      (NewTorrentProxy env).engineRunning = false)
    ∧ (∀ a s e, env.dhtResult = .ok a → env.specResult = .ok s →
        env.clientResult = .ok () → env.listenResult = .error e →
        NewTorrentProxy env = ⟨some e, true, false⟩) := by
  obtain ⟨d, sp, cl, li⟩ := env
  cases d <;> cases sp <;> cases cl <;> cases li <;>
    simp [NewTorrentProxy, startTorrentClient, startHTTPServer]

/-- Witness for C9 at a concrete environment whose seed resolution
fails. -/
theorem startup_failures_are_synchronous_witness :
    (∃ e, (NewTorrentProxy ⟨.error "bad node", .ok ⟨"h", "n"⟩, .ok (), .ok ()⟩).err
        = some e)
    ∧ (NewTorrentProxy
        ⟨.error "bad node", .ok ⟨"h", "n"⟩, .ok (), .ok ()⟩).httpListenerRunning
      = false :=
  (startup_failures_are_synchronous
    ⟨.error "bad node", .ok ⟨"h", "n"⟩, .ok (), .ok ()⟩).1 (Or.inl ⟨"bad node", rfl⟩)

end Evaporation
